import Mathlib

/-!
Shallow embedding of the XNNPACK convolution execution path of
onnxruntime (onnxruntime/core/providers/xnnpack/nn/conv.cc): the
quantization-parameter classifier, the kernel-creation argument
marshalling, the one-shot weight prepack transpose, and the compute
dispatch, together with theorems about their specified behaviour.

Scalar payloads (float data such as scales, clip bounds and tensor
elements) are abstracted over a type alpha; byte-typed reads go through
an explicit raw-byte view. The native library is modelled by oracles
returning an xnn status code, and each creation/setup/run invocation is
recorded so that call counts can be reasoned about.
-/

namespace XnnpackConv

/-- Auto-padding modes of the convolution attributes. -/
inductive AutoPadType where
  | NOTSET
  | VALID
  | SAME_UPPER
  | SAME_LOWER
  deriving DecidableEq, Repr

/-- The xnn_compute_type values conv.cc dispatches on. -/
inductive XnnComputeType where
  | invalid
  | fp32
  | qs8
  | qc8
  | qu8
  deriving DecidableEq, Repr

/-- ONNX tensor element dtypes relevant to the classifier. -/
inductive XDType where
  | float
  | uint8
  | int8
  | other
  deriving DecidableEq, Repr

/-- Modelled from the backend header: the xnn_status success sentinel. -/
def xnn_status_success : Nat := 0

/-- Modelled from the backend header: the xnn_status_invalid_state code. -/
def xnn_status_invalid_state : Nat := 3

/-- Modelled from the backend header: the TensorFlow same-padding flag bit. -/
def XNN_FLAG_TENSORFLOW_SAME_PADDING : Nat := 4

/-- A materialized tensor: dtype tag, dims, typed element view, and a raw
byte view modelling reinterpreting reads such as Data of uint8. -/
structure Tensor (α : Type) where
  dtype : Nat
  shape : List Nat
  data : List α
  bdata : List Nat
  deriving DecidableEq, Repr

/-- The convolution attributes conv.cc reads; pads are laid out
top/left/bottom/right, strides and dilations height-first. -/
structure ConvAttrs where
  auto_pad : AutoPadType
  pads : List Nat
  strides : List Nat
  dilations : List Nat
  group : Nat
  deriving DecidableEq, Repr

/-- The quantization parameters ParseQuantParamAndConType fills in. -/
structure QuantParam (α : Type) where
  X_zero_point_value : Nat
  W_zero_point_value : Nat
  Y_zero_point_value : Nat
  X_scale_value : α
  W_scale_value : α
  Y_scale_value : α
  W_scale_arr : List α
  deriving DecidableEq, Repr

/-- A clamp bound as passed to the float kernel creation call. -/
inductive ClampVal (α : Type) where
  | negInf
  | posInf
  | val (v : α)
  deriving DecidableEq, Repr

/-- static_cast of a byte value to int8. -/
def i8cast (v : Nat) : Int :=
  if v % 256 < 128 then ((v % 256 : Nat) : Int) else ((v % 256 : Nat) : Int) - 256

/-- The variant-specific arguments of one xnn_create_convolution2d_nhwc
call: clamp bounds, zero points, scales, and for qc8 the buffer passed as
the kernel-scale pointer. -/
inductive CallVariant (α : Type) where
  | f32 (output_min output_max : ClampVal α)
  | qs8 (x_zp : Int) (x_scale : α) (w_scale : α) (y_zp : Int) (y_scale : α)
      (output_min output_max : Int)
  | qc8 (x_zp : Int) (x_scale : α) (w_scale_buf : List α) (y_zp : Nat) (y_scale : α)
      (output_min output_max : Int)
  | qu8 (x_zp : Nat) (x_scale : α) (w_zp : Nat) (w_scale : α) (y_zp : Nat) (y_scale : α)
      (output_min output_max : Nat)
  deriving DecidableEq, Repr

/-- The full argument record of one xnn_create_convolution2d_nhwc call. -/
structure CreateCall (α : Type) where
  input_padding_top : Nat
  input_padding_right : Nat
  input_padding_bottom : Nat
  input_padding_left : Nat
  kernel_height : Nat
  kernel_width : Nat
  subsampling_height : Nat
  subsampling_width : Nat
  dilation_height : Nat
  dilation_width : Nat
  groups : Nat
  group_input_channels : Nat
  group_output_channels : Nat
  input_channel_stride : Nat
  output_channel_stride : Nat
  w_data : List α
  bias_present : Bool
  flags : Nat
  variant : CallVariant α
  deriving DecidableEq, Repr

/-- The float clamp pair of a creation call, when it is an f32 call. -/
def CallVariant.outMinMaxF32 : CallVariant α → Option (ClampVal α × ClampVal α)
  | CallVariant.f32 lo hi => some (lo, hi)
  | _ => none

/-- The signed-8 clamp pair, for qs8 and qc8 calls. -/
def CallVariant.outMinMaxS8 : CallVariant α → Option (Int × Int)
  | CallVariant.qs8 _ _ _ _ _ lo hi => some (lo, hi)
  | CallVariant.qc8 _ _ _ _ _ lo hi => some (lo, hi)
  | _ => none

/-- The uint8 clamp pair, for qu8 calls. -/
def CallVariant.outMinMaxU8 : CallVariant α → Option (Nat × Nat)
  | CallVariant.qu8 _ _ _ _ _ _ lo hi => some (lo, hi)
  | _ => none

/-- The buffer the qc8 call receives as its kernel-scale pointer. -/
def CallVariant.qc8ScaleBuf : CallVariant α → Option (List α)
  | CallVariant.qc8 _ _ buf _ _ _ _ => some buf
  | _ => none

/-- Argument marshalling of CreateXnnpackKernel (conv.cc lines 17 to 146):
the xnn_create_convolution2d_nhwc call the code makes for a given compute
type, or none for an unsupported type. The castU8 parameter models
static_cast of a clip value to uint8 on the qu8 path. The qc8 branch
passes the address of the scalar W_scale_value, modelled as the
one-element buffer holding that value. -/
def buildCreateCall (castU8 : α → Nat) (conv_attrs : ConvAttrs) (C M : Nat)
    (kernel_shape : List Nat) (clip_min_max : Option (α × α)) (W : Tensor α)
    (bias_present : Bool) (quant_param : QuantParam α)
    (conv_type : XnnComputeType) : Option (CreateCall α) :=
  let kernel_height := kernel_shape.getD 0 0
  let kernel_width := kernel_shape.getD 1 0
  let input_padding_top := conv_attrs.pads.getD 0 0
  let input_padding_left := conv_attrs.pads.getD 1 0
  let input_padding_bottom := conv_attrs.pads.getD 2 0
  let input_padding_right := conv_attrs.pads.getD 3 0
  let subsampling_height := conv_attrs.strides.getD 0 1
  let subsampling_width := conv_attrs.strides.getD 1 1
  let dilation_height := conv_attrs.dilations.getD 0 1
  let dilation_width := conv_attrs.dilations.getD 1 1
  let flags := if conv_attrs.auto_pad = AutoPadType.SAME_UPPER
               then XNN_FLAG_TENSORFLOW_SAME_PADDING else 0
  let group_count := conv_attrs.group
  let group_input_channels := C / group_count
  let group_output_channels := M / group_count
  let mk : Nat → CallVariant α → CreateCall α := fun fl v =>
    { input_padding_top := input_padding_top, input_padding_right := input_padding_right,
      input_padding_bottom := input_padding_bottom, input_padding_left := input_padding_left,
      kernel_height := kernel_height, kernel_width := kernel_width,
      subsampling_height := subsampling_height, subsampling_width := subsampling_width,
      dilation_height := dilation_height, dilation_width := dilation_width,
      groups := group_count, group_input_channels := group_input_channels,
      group_output_channels := group_output_channels,
      input_channel_stride := C, output_channel_stride := M,
      w_data := W.data, bias_present := bias_present, flags := fl, variant := v }
  match conv_type with
  | XnnComputeType.fp32 =>
      let output_min := match clip_min_max with
        | some p => ClampVal.val p.1
        | none => ClampVal.negInf
      let output_max := match clip_min_max with
        | some p => ClampVal.val p.2
        | none => ClampVal.posInf
      some (mk flags (CallVariant.f32 output_min output_max))
  | XnnComputeType.qs8 =>
      some (mk 0 (CallVariant.qs8 (i8cast quant_param.X_zero_point_value)
        quant_param.X_scale_value quant_param.W_scale_value
        (i8cast quant_param.Y_zero_point_value) quant_param.Y_scale_value (-126) 126))
  | XnnComputeType.qc8 =>
      some (mk 0 (CallVariant.qc8 (i8cast quant_param.X_zero_point_value)
        quant_param.X_scale_value [quant_param.W_scale_value]
        quant_param.Y_zero_point_value quant_param.Y_scale_value (-126) 126))
  | XnnComputeType.qu8 =>
      let output_min := match clip_min_max with
        | some p => castU8 p.1
        | none => 0
      let output_max := match clip_min_max with
        | some p => castU8 p.2
        | none => 255
      some (mk 0 (CallVariant.qu8 quant_param.X_zero_point_value quant_param.X_scale_value
        quant_param.W_zero_point_value quant_param.W_scale_value
        quant_param.Y_zero_point_value quant_param.Y_scale_value output_min output_max))
  | XnnComputeType.invalid => none

/-- Which input failed a constant-initializer precondition. -/
inductive QInputId where
  | xZeroPoint
  | wZeroPoint
  | yZeroPoint
  | xScale
  | wScale
  | yScale
  | weight
  | bias
  deriving DecidableEq, Repr

/-- The failure statuses conv.cc can surface. -/
inductive OrtErr where
  | precondition (which : QInputId)
  | unsupportedKernelType
  | createFailed (code : Nat)
  | setupFailed (code : Nat)
  | runFailed (code : Nat)
  deriving DecidableEq, Repr

/-- CreateXnnpackKernel (conv.cc lines 17 to 153): marshal the arguments,
make the native creation call (status given by the oracle), and turn an
unsupported type or a non-success status into a failure. -/
def CreateXnnpackKernel (castU8 : α → Nat) (native : CreateCall α → Nat)
    (conv_attrs : ConvAttrs) (C M : Nat) (kernel_shape : List Nat)
    (clip_min_max : Option (α × α)) (W : Tensor α) (bias_present : Bool)
    (quant_param : QuantParam α) (conv_type : XnnComputeType) :
    Except OrtErr (CreateCall α) :=
  match buildCreateCall castU8 conv_attrs C M kernel_shape clip_min_max W bias_present
      quant_param conv_type with
  | none => Except.error OrtErr.unsupportedKernelType
  | some call =>
      if native call = xnn_status_success then Except.ok call
      else Except.error (OrtErr.createFailed (native call))

/- Modelled from the spec: Conv::InputTensors (declared in conv.h, which is
not under src); the spec and the QLinearConv signature place the weight at
input position 3 for the quantized paths. -/

def IN_X_SCALE : Nat := 1

def IN_X_ZERO_POINT : Nat := 2

def IN_W : Nat := 3

def IN_W_SCALE : Nat := 4

def IN_W_ZERO_POINT : Nat := 5

def IN_Y_SCALE : Nat := 6

def IN_Y_ZERO_POINT : Nat := 7

def IN_BIAS : Nat := 8

/-- The parts of OpKernelInfo and the node that conv.cc reads: the constant
initializers by input index (none when the input is absent or not a
constant), the input dtype, the channel count from the NHWC input shape,
the fused activation clip pair, and the bias arity facts. -/
structure OpKernelInfo (α : Type) where
  constants : Nat → Option (Tensor α)
  x_dtype : XDType
  x_channels : Nat
  clip_min_max : Option (α × α)
  num_inputs : Nat
  bias_exists : Bool

/-- Modelled from the spec: IsScalarOr1ElementVector (core/providers/utils,
not under src); per the spec an exactly-one-element weight scale selects the
per-tensor path and more than one element the per-channel path. -/
def IsScalarOr1ElementVector (t : Tensor α) : Bool :=
  t.shape.prod == 1

/-- ParseQuantParamAndConType (conv.cc lines 155 to 202): enforce that the
six zero-point and scale inputs are constant initializers, read their
leading elements, and classify the compute type from the input dtype and
the element count of the weight scale; the per-channel branch retains the
whole weight-scale array. -/
def ParseQuantParamAndConType [Inhabited α] (info : OpKernelInfo α) (x_dtype : XDType) :
    Except OrtErr (QuantParam α × XnnComputeType) :=
  match info.constants IN_X_ZERO_POINT with
  | none => Except.error (OrtErr.precondition QInputId.xZeroPoint)
  | some X_zero_point =>
    match info.constants IN_W_ZERO_POINT with
    | none => Except.error (OrtErr.precondition QInputId.wZeroPoint)
    | some W_zero_point =>
      match info.constants IN_Y_ZERO_POINT with
      | none => Except.error (OrtErr.precondition QInputId.yZeroPoint)
      | some Y_zero_point =>
        match info.constants IN_X_SCALE with
        | none => Except.error (OrtErr.precondition QInputId.xScale)
        | some X_scale =>
          match info.constants IN_W_SCALE with
          | none => Except.error (OrtErr.precondition QInputId.wScale)
          | some W_scale =>
            match info.constants IN_Y_SCALE with
            | none => Except.error (OrtErr.precondition QInputId.yScale)
            | some Y_scale =>
              let base : QuantParam α :=
                { X_zero_point_value := X_zero_point.bdata.getD 0 0 % 256,
                  W_zero_point_value := W_zero_point.bdata.getD 0 0 % 256,
                  Y_zero_point_value := Y_zero_point.bdata.getD 0 0 % 256,
                  X_scale_value := X_scale.data.getD 0 default,
                  W_scale_value := W_scale.data.getD 0 default,
                  Y_scale_value := Y_scale.data.getD 0 default,
                  W_scale_arr := [] }
              if x_dtype = XDType.int8 then
                if IsScalarOr1ElementVector W_scale then
                  Except.ok (base, XnnComputeType.qs8)
                else
                  Except.ok ({ base with W_scale_arr := W_scale.data }, XnnComputeType.qc8)
              else if x_dtype = XDType.uint8 then
                Except.ok (base, XnnComputeType.qu8)
              else
                Except.ok (base, XnnComputeType.invalid)

/-- The quantization-parameter record of the float path, which never runs
the classifier. -/
def defaultQuantParam [Inhabited α] : QuantParam α :=
  { X_zero_point_value := 0, W_zero_point_value := 0, Y_zero_point_value := 0,
    X_scale_value := default, W_scale_value := default, Y_scale_value := default,
    W_scale_arr := [] }

/-- The operator state a successful Conv constructor produces; packed_w and
op0 stay empty until the prepack event. -/
structure ConvState (α : Type) where
  conv_attrs : ConvAttrs
  clip_min_max : Option (α × α)
  conv_type : XnnComputeType
  quant_param : QuantParam α
  C : Nat
  M : Nat
  kernel_shape : List Nat
  B : Option (Tensor α)
  packed_w : Option (Tensor α)
  op0 : Option (CreateCall α)
  deriving DecidableEq, Repr

/-- Modelled from the spec: ConvAttributes::ComputeKernelShape (not under
src); the descriptor's kernel spatial shape, read from the trailing dims of
the ONNX-layout weight. -/
def ComputeKernelShape (w_shape : List Nat) : List Nat :=
  w_shape.drop 2

/-- The Conv constructor (conv.cc lines 207 to 280): record the fused clip
pair and the channel count from the NHWC input, enforce a constant weight,
classify the quantized paths, compute M and the kernel shape, default the
pads, strides and dilations when empty, and enforce a constant bias when
one exists. -/
def constructConv [Inhabited α] (info : OpKernelInfo α) (attrs0 : ConvAttrs) :
    Except OrtErr (ConvState α) :=
  match (if info.x_dtype = XDType.float then
           match info.constants 1 with
           | none => Except.error (OrtErr.precondition QInputId.weight)
           | some W => Except.ok (W, XnnComputeType.fp32, (defaultQuantParam : QuantParam α))
         else
           match info.constants IN_W with
           | none => Except.error (OrtErr.precondition QInputId.weight)
           | some W =>
             match ParseQuantParamAndConType info info.x_dtype with
             | Except.error e => Except.error e
             | Except.ok (qp, ct) => Except.ok (W, ct, qp)) with
  | Except.error e => Except.error e
  | Except.ok (W, conv_type, quant_param) =>
    let M := W.shape.getD 0 0
    let kernel_shape := ComputeKernelShape W.shape
    let pads := if attrs0.pads.isEmpty then List.replicate (kernel_shape.length * 2) 0
                else attrs0.pads
    let dilations := if attrs0.dilations.isEmpty then List.replicate kernel_shape.length 1
                     else attrs0.dilations
    let strides := if attrs0.strides.isEmpty then List.replicate kernel_shape.length 1
                   else attrs0.strides
    let bias_res : Except OrtErr (Option (Tensor α)) :=
      if conv_type = XnnComputeType.fp32 then
        if info.num_inputs = 3 ∧ info.bias_exists then
          match info.constants 2 with
          | none => Except.error (OrtErr.precondition QInputId.bias)
          | some b => Except.ok (some b)
        else Except.ok none
      else
        if info.num_inputs = IN_BIAS + 1 ∧ info.bias_exists then
          match info.constants IN_BIAS with
          | none => Except.error (OrtErr.precondition QInputId.bias)
          | some b => Except.ok (some b)
        else Except.ok none
    let attrs1 : ConvAttrs :=
      { auto_pad := attrs0.auto_pad, pads := pads, strides := strides,
        dilations := dilations, group := attrs0.group }
    match bias_res with
    | Except.error e => Except.error e
    | Except.ok B =>
      Except.ok { conv_attrs := attrs1,
                  clip_min_max := info.clip_min_max, conv_type := conv_type,
                  quant_param := quant_param, C := info.x_channels, M := M,
                  kernel_shape := kernel_shape, B := B, packed_w := none, op0 := none }

/-- The flat source index read for flat destination index j when moving
axis 1 of a rank-4 tensor with dims d0 d1 d2 d3 to the end, so that the
destination has dims d0 d2 d3 d1. -/
def srcIndex0231 (d1 d2 d3 j : Nat) : Nat :=
  ((j / d1 / d3 / d2 * d1 + j % d1) * d2 + j / d1 / d3 % d2) * d3 + j / d1 % d3

/-- Modelled from the spec: SingleAxisTranspose restricted to permutation
0231 (core/framework/transpose_helper, not under src); move axis 1 of a
rank-4 row-major buffer to the last position. -/
def transpose0231 [Inhabited α] (d0 d1 d2 d3 : Nat) (data : List α) : List α :=
  (List.range (d0 * d2 * d3 * d1)).map fun j => data.getD (srcIndex0231 d1 d2 d3 j) default

/-- The flat source index for the inverse permutation 0312, taking a buffer
with dims d0 d2 d3 d1 back to dims d0 d1 d2 d3. -/
def srcIndex0312 (d1 d2 d3 i : Nat) : Nat :=
  ((i / d3 / d2 / d1 * d2 + i / d3 % d2) * d3 + i % d3) * d1 + i / d3 / d2 % d1

/-- The inverse permutation applied to the transformed buffer. -/
def transpose0312 [Inhabited α] (d0 d1 d2 d3 : Nat) (data : List α) : List α :=
  (List.range (d0 * d1 * d2 * d3)).map fun i => data.getD (srcIndex0312 d1 d2 d3 i) default

/-- The observable outcome of Conv::PrePack: the possibly mutated operator
state, the is_packed output, the native creation calls made, and the
returned status (none meaning OK). -/
structure PrePackResult (α : Type) where
  state : ConvState α
  is_packed : Bool
  calls : List (CreateCall α)
  status : Option OrtErr
  deriving DecidableEq, Repr

/-- Conv::PrePack (conv.cc lines 283 to 318): on the weight input position
(1 for the float path, IN_W otherwise), allocate the transposed tensor of
dims M kH kW Cg with the source element type, fill it with the 0231
permutation, store it as the packed weight, and create the xnnpack kernel;
on any other input position do nothing and report is_packed false. -/
def PrePack [Inhabited α] (castU8 : α → Nat) (native : CreateCall α → Nat)
    (s : ConvState α) (tensor : Tensor α) (input_idx : Nat) : PrePackResult α :=
  if (s.conv_type = XnnComputeType.fp32 ∧ input_idx = 1) ∨
     (¬s.conv_type = XnnComputeType.fp32 ∧ input_idx = IN_W) then
    let orig_shape := tensor.shape
    let new_dims : List Nat := [orig_shape.getD 0 0, orig_shape.getD 2 0,
                                orig_shape.getD 3 0, orig_shape.getD 1 0]
    let packed : Tensor α :=
      { dtype := tensor.dtype, shape := new_dims,
        data := transpose0231 (orig_shape.getD 0 0) (orig_shape.getD 1 0)
                  (orig_shape.getD 2 0) (orig_shape.getD 3 0) tensor.data,
        bdata := [] }
    let s1 := { s with packed_w := some packed }
    match buildCreateCall castU8 s.conv_attrs s.C s.M s.kernel_shape s.clip_min_max packed
        s.B.isSome s.quant_param s.conv_type with
    | none =>
        { state := s1, is_packed := true, calls := [],
          status := some OrtErr.unsupportedKernelType }
    | some call =>
        if native call = xnn_status_success then
          { state := { s1 with op0 := some call }, is_packed := true, calls := [call],
            status := none }
        else
          { state := s1, is_packed := true, calls := [call],
            status := some (OrtErr.createFailed (native call)) }
  else
    { state := s, is_packed := false, calls := [], status := none }

/-- The model-load pipeline: run the constructor, then offer the constant
weight for prepacking; the second component lists the native creation calls
made along the way. -/
def buildOperator [Inhabited α] (castU8 : α → Nat) (native : CreateCall α → Nat)
    (info : OpKernelInfo α) (attrs0 : ConvAttrs) :
    Except OrtErr (ConvState α) × List (CreateCall α) :=
  match constructConv info attrs0 with
  | Except.error e => (Except.error e, [])
  | Except.ok s =>
    match info.constants (if s.conv_type = XnnComputeType.fp32 then 1 else IN_W) with
    | none => (Except.ok s, [])
    | some wT =>
      let r := PrePack castU8 native s wT
        (if s.conv_type = XnnComputeType.fp32 then 1 else IN_W)
      (match r.status with
       | some e => Except.error e
       | none => Except.ok r.state, r.calls)

/-- Whether a build outcome is a precondition failure. -/
def isPrecondFailure : Except OrtErr (ConvState α) → Bool
  | Except.error (OrtErr.precondition _) => true
  | _ => false

/-- Modelled from the spec: ConvAttributes::InferPadsAndOutputShape (not
under src); one spatial output dim from the standard padded-convolution
formula. -/
def inferOutputDim (auto_pad : AutoPadType)
    (in_dim kernel stride dilation pad_head pad_tail : Nat) : Nat :=
  let dk := dilation * (kernel - 1) + 1
  match auto_pad with
  | AutoPadType.SAME_UPPER => (in_dim + stride - 1) / stride
  | AutoPadType.SAME_LOWER => (in_dim + stride - 1) / stride
  | AutoPadType.VALID => (in_dim - dk) / stride + 1
  | AutoPadType.NOTSET => (in_dim + pad_head + pad_tail - dk) / stride + 1

/-- Modelled from the spec: the spatial output dims over all spatial axes;
pads hold the head values first and then the tail values. -/
def inferOutputShape (conv_attrs : ConvAttrs) (kernel_shape input_shape : List Nat) :
    List Nat :=
  (List.range input_shape.length).map fun i =>
    inferOutputDim conv_attrs.auto_pad (input_shape.getD i 0) (kernel_shape.getD i 0)
      (conv_attrs.strides.getD i 1) (conv_attrs.dilations.getD i 1)
      (conv_attrs.pads.getD i 0) (conv_attrs.pads.getD (i + input_shape.length) 0)

/-- The output dims Conv::Compute produces for an NHWC input shape: N first,
then the inferred spatial dims over H and W, with M appended last. -/
def computeYDims (s : ConvState α) (x_shape : List Nat) : List Nat :=
  x_shape.getD 0 0 ::
    inferOutputShape s.conv_attrs s.kernel_shape [x_shape.getD 1 0, x_shape.getD 2 0] ++
    [s.M]

/-- The observable outcome of Conv::Compute: the state after the call
(Compute is const, so the state passes through), the output dims, the
native setup and run call counts, and the returned status. -/
structure ComputeResult (α : Type) where
  state : ConvState α
  y_dims : List Nat
  setup_calls : Nat
  run_calls : Nat
  status : Option OrtErr
  deriving DecidableEq, Repr

/-- Conv::Compute (conv.cc lines 320 to 376): infer the output dims, create
the output tensor, bail out successfully on a zero-element output, then
make the setup call and the run call (statuses given by the oracles),
surfacing any non-success backend status as a failure carrying the code. -/
def Compute (setup_status run_status : Nat) (s : ConvState α) (x_shape : List Nat) :
    ComputeResult α :=
  if (computeYDims s x_shape).prod = 0 then
    { state := s, y_dims := computeYDims s x_shape, setup_calls := 0, run_calls := 0,
      status := none }
  else if s.conv_type = XnnComputeType.invalid then
    { state := s, y_dims := computeYDims s x_shape, setup_calls := 0, run_calls := 0,
      status := some (OrtErr.setupFailed xnn_status_invalid_state) }
  else if setup_status = xnn_status_success then
    if run_status = xnn_status_success then
      { state := s, y_dims := computeYDims s x_shape, setup_calls := 1, run_calls := 1,
        status := none }
    else
      { state := s, y_dims := computeYDims s x_shape, setup_calls := 1, run_calls := 1,
        status := some (OrtErr.runFailed run_status) }
  else
    { state := s, y_dims := computeYDims s x_shape, setup_calls := 1, run_calls := 0,
      status := some (OrtErr.setupFailed setup_status) }

/-! ### Index arithmetic for the prepack transpose -/

theorem add_mul_div_eq (a q b : Nat) (h : a < b) : (a + q * b) / b = q := by
  have hb : 0 < b := lt_of_le_of_lt (Nat.zero_le a) h
  rw [Nat.add_mul_div_right a q hb, Nat.div_eq_of_lt h, Nat.zero_add]

theorem add_mul_mod_eq (a q b : Nat) (h : a < b) : (a + q * b) % b = a := by
  rw [Nat.add_mul_mod_self_right, Nat.mod_eq_of_lt h]

theorem mul_add_div_eq (q b a : Nat) (h : a < b) : (q * b + a) / b = q := by
  rw [Nat.add_comm]
  exact add_mul_div_eq a q b h

theorem mul_add_mod_eq (q b a : Nat) (h : a < b) : (q * b + a) % b = a := by
  rw [Nat.add_comm]
  exact add_mul_mod_eq a q b h

theorem pair_lt (a b x y : Nat) (hx : x < a) (hy : y < b) : x * b + y < a * b := by
  have h1 : x * b + y < (x + 1) * b := by
    rw [Nat.succ_mul]
    omega
  exact lt_of_lt_of_le h1 (Nat.mul_le_mul_right b hx)

theorem pos_factors (a b c d : Nat) (h : 0 < a * b * c * d) :
    0 < a ∧ 0 < b ∧ 0 < c ∧ 0 < d := by
  refine ⟨?_, ?_, ?_, ?_⟩ <;> by_contra hz <;> push_neg at hz <;>
    have hz0 := Nat.le_zero.mp hz <;> subst hz0 <;> simp at h

theorem getD_range_map {α : Type} [Inhabited α] (f : Nat → α) (n j : Nat) (hj : j < n) :
    ((List.range n).map f).getD j default = f j := by
  rw [List.getD_eq_getElem?_getD, List.getElem?_map, List.getElem?_range hj]
  rfl

theorem getElem?_range_map {α : Type} (f : Nat → α) (n j : Nat) :
    ((List.range n).map f)[j]? = if j < n then some (f j) else none := by
  by_cases hj : j < n
  · rw [List.getElem?_map, List.getElem?_range hj, if_pos hj]
    rfl
  · rw [if_neg hj, List.getElem?_eq_none]
    simpa using Nat.le_of_not_lt hj

theorem srcIndex0231_encode (d1 d2 d3 m h w c : Nat)
    (hc : c < d1) (hh : h < d2) (hw : w < d3) :
    srcIndex0231 d1 d2 d3 (((m * d2 + h) * d3 + w) * d1 + c) =
      ((m * d1 + c) * d2 + h) * d3 + w := by
  unfold srcIndex0231
  rw [mul_add_mod_eq _ _ _ hc, mul_add_div_eq _ _ _ hc,
      mul_add_mod_eq _ _ _ hw, mul_add_div_eq _ _ _ hw,
      mul_add_mod_eq _ _ _ hh, mul_add_div_eq _ _ _ hh]

theorem recompose (d1 d2 d3 i : Nat) :
    ((i / d3 / d2 / d1 * d1 + i / d3 / d2 % d1) * d2 + i / d3 % d2) * d3 + i % d3 = i := by
  conv_rhs => rw [← Nat.div_add_mod i d3, ← Nat.div_add_mod (i / d3) d2,
    ← Nat.div_add_mod (i / d3 / d2) d1]
  ring

theorem roundtrip_elem {α : Type} [Inhabited α] (d0 d1 d2 d3 i : Nat) (data : List α)
    (hi : i < d0 * d1 * d2 * d3) :
    (transpose0231 d0 d1 d2 d3 data).getD (srcIndex0312 d1 d2 d3 i) default =
      data.getD i default := by
  have htot : 0 < d0 * d1 * d2 * d3 := lt_of_le_of_lt (Nat.zero_le i) hi
  obtain ⟨hd0, hd1, hd2, hd3⟩ := pos_factors d0 d1 d2 d3 htot
  have hw : i % d3 < d3 := Nat.mod_lt _ hd3
  have hh : i / d3 % d2 < d2 := Nat.mod_lt _ hd2
  have hc : i / d3 / d2 % d1 < d1 := Nat.mod_lt _ hd1
  have hm : i / d3 / d2 / d1 < d0 := by
    have h1 : i / d3 < d0 * d1 * d2 := (Nat.div_lt_iff_lt_mul hd3).mpr hi
    have h2 : i / d3 / d2 < d0 * d1 := (Nat.div_lt_iff_lt_mul hd2).mpr h1
    exact (Nat.div_lt_iff_lt_mul hd1).mpr h2
  have hK : srcIndex0312 d1 d2 d3 i < d0 * d2 * d3 * d1 := by
    unfold srcIndex0312
    exact pair_lt _ _ _ _ (pair_lt _ _ _ _ (pair_lt _ _ _ _ hm hh) hw) hc
  unfold transpose0231
  rw [getD_range_map _ _ _ hK]
  show data.getD (srcIndex0231 d1 d2 d3 (srcIndex0312 d1 d2 d3 i)) default = _
  unfold srcIndex0312
  rw [srcIndex0231_encode d1 d2 d3 (i / d3 / d2 / d1) (i / d3 % d2) (i % d3)
    (i / d3 / d2 % d1) hc hh hw]
  rw [recompose]

theorem transpose_roundtrip {α : Type} [Inhabited α] (d0 d1 d2 d3 : Nat) (data : List α)
    (hlen : data.length = d0 * d1 * d2 * d3) :
    transpose0312 d0 d1 d2 d3 (transpose0231 d0 d1 d2 d3 data) = data := by
  apply List.ext_getElem?
  intro i
  by_cases hi : i < d0 * d1 * d2 * d3
  · have hlhs : (transpose0312 d0 d1 d2 d3 (transpose0231 d0 d1 d2 d3 data))[i]? =
        some ((transpose0231 d0 d1 d2 d3 data).getD (srcIndex0312 d1 d2 d3 i) default) := by
      unfold transpose0312
      rw [getElem?_range_map, if_pos hi]
    rw [hlhs, roundtrip_elem d0 d1 d2 d3 i data hi]
    have hilen : i < data.length := by omega
    rw [List.getD_eq_getElem data default hilen, List.getElem?_eq_getElem hilen]
  · have h1 : (transpose0312 d0 d1 d2 d3 (transpose0231 d0 d1 d2 d3 data))[i]? = none := by
      unfold transpose0312
      rw [getElem?_range_map, if_neg hi]
    have h2 : data[i]? = none := by
      rw [List.getElem?_eq_none]
      omega
    rw [h1, h2]

theorem transpose0231_apply {α : Type} [Inhabited α] (d0 d1 d2 d3 m c h w : Nat)
    (data : List α) (hm : m < d0) (hc : c < d1) (hh : h < d2) (hw : w < d3) :
    (transpose0231 d0 d1 d2 d3 data).getD (((m * d2 + h) * d3 + w) * d1 + c) default =
      data.getD (((m * d1 + c) * d2 + h) * d3 + w) default := by
  unfold transpose0231
  rw [getD_range_map _ _ _
      (pair_lt _ _ _ _ (pair_lt _ _ _ _ (pair_lt _ _ _ _ hm hh) hw) hc),
    srcIndex0231_encode d1 d2 d3 m h w c hc hh hw]

/-! ### Characterizations of the classifier -/

theorem parse_ok_char {α : Type} [Inhabited α] (info : OpKernelInfo α) (d : XDType)
    (qp : QuantParam α) (t : XnnComputeType)
    (hok : ParseQuantParamAndConType info d = Except.ok (qp, t)) :
    ∃ Ws, info.constants IN_W_SCALE = some Ws ∧
      t = (if d = XDType.int8 then
             (if Ws.shape.prod = 1 then XnnComputeType.qs8 else XnnComputeType.qc8)
           else if d = XDType.uint8 then XnnComputeType.qu8 else XnnComputeType.invalid) := by
  unfold ParseQuantParamAndConType at hok
  split at hok
  · exact absurd hok (by simp)
  split at hok
  · exact absurd hok (by simp)
  split at hok
  · exact absurd hok (by simp)
  split at hok
  · exact absurd hok (by simp)
  split at hok
  · exact absurd hok (by simp)
  rename_i Ws hWs
  split at hok
  · exact absurd hok (by simp)
  refine ⟨Ws, hWs, ?_⟩
  split at hok
  · rename_i hd
    split at hok
    · rename_i hscal
      simp only [IsScalarOr1ElementVector, beq_iff_eq] at hscal
      obtain ⟨-, ht⟩ := by simpa using hok
      rw [if_pos hd, if_pos hscal]
      exact ht.symm
    · rename_i hscal
      simp only [IsScalarOr1ElementVector, beq_iff_eq] at hscal
      obtain ⟨-, ht⟩ := by simpa using hok
      rw [if_pos hd, if_neg hscal]
      exact ht.symm
  · rename_i hd
    split at hok
    · rename_i hd2
      obtain ⟨-, ht⟩ := by simpa using hok
      rw [if_neg hd, if_pos hd2]
      exact ht.symm
    · rename_i hd2
      obtain ⟨-, ht⟩ := by simpa using hok
      rw [if_neg hd, if_neg hd2]
      exact ht.symm

theorem parse_error_precond {α : Type} [Inhabited α] (info : OpKernelInfo α) (d : XDType)
    (e : OrtErr) (herr : ParseQuantParamAndConType info d = Except.error e) :
    ∃ w, e = OrtErr.precondition w := by
  unfold ParseQuantParamAndConType at herr
  repeat' split at herr
  all_goals first
    | (injection herr with h
       exact ⟨_, h.symm⟩)
    | exact absurd herr (by simp)

theorem parse_some_of_ok {α : Type} [Inhabited α] (info : OpKernelInfo α) (d : XDType)
    (z : QuantParam α × XnnComputeType)
    (hok : ParseQuantParamAndConType info d = Except.ok z) :
    (info.constants IN_X_ZERO_POINT).isSome ∧ (info.constants IN_W_ZERO_POINT).isSome ∧
    (info.constants IN_Y_ZERO_POINT).isSome ∧ (info.constants IN_X_SCALE).isSome ∧
    (info.constants IN_W_SCALE).isSome ∧ (info.constants IN_Y_SCALE).isSome := by
  unfold ParseQuantParamAndConType at hok
  repeat' split at hok
  all_goals simp_all

theorem compute_y_dims {α : Type} (a b : Nat) (s : ConvState α) (x_shape : List Nat) :
    (Compute a b s x_shape).y_dims = computeYDims s x_shape := by
  unfold Compute
  repeat' split
  all_goals rfl

/-! ### Concrete example values used by the counterexamples and witnesses -/

/-- Attributes requesting SAME_UPPER auto-padding. -/
def sameAttrs : ConvAttrs :=
  { auto_pad := AutoPadType.SAME_UPPER, pads := [0, 0, 0, 0], strides := [1, 1],
    dilations := [1, 1], group := 1 }

/-- A one-element zero-point tensor holding the byte 0. -/
def zpTensor : Tensor Int := { dtype := 2, shape := [], data := [], bdata := [0] }

/-- A scalar scale tensor holding the value 5. -/
def scale1Tensor : Tensor Int := { dtype := 1, shape := [], data := [5], bdata := [] }

/-- A weight-scale tensor with three elements, one per output channel. -/
def wScaleTensorC1 : Tensor Int := { dtype := 1, shape := [3], data := [1, 2, 3], bdata := [] }

/-- A rank-4 int8 weight tensor of dims 3 4 1 1. -/
def exWTensorC1 : Tensor Int := { dtype := 3, shape := [3, 4, 1, 1], data := [], bdata := [] }

/-- A node whose six quantization inputs are all constant, with an int8
input dtype and a three-element weight scale. -/
def exInfoC1 : OpKernelInfo Int :=
  { constants := fun n =>
      if n = IN_X_ZERO_POINT ∨ n = IN_W_ZERO_POINT ∨ n = IN_Y_ZERO_POINT then some zpTensor
      else if n = IN_X_SCALE ∨ n = IN_Y_SCALE then some scale1Tensor
      else if n = IN_W_SCALE then some wScaleTensorC1
      else if n = IN_W then some exWTensorC1
      else none,
    x_dtype := XDType.int8, x_channels := 4, clip_min_max := none,
    num_inputs := 8, bias_exists := false }

/-- The quantization parameters the classifier produces on exInfoC1. -/
def exQpC1 : QuantParam Int :=
  { X_zero_point_value := 0, W_zero_point_value := 0, Y_zero_point_value := 0,
    X_scale_value := 5, W_scale_value := 1, Y_scale_value := 5, W_scale_arr := [1, 2, 3] }

/-- Generic quantization parameters for kernel-creation examples. -/
def exQpC2 : QuantParam Int :=
  { X_zero_point_value := 0, W_zero_point_value := 0, Y_zero_point_value := 0,
    X_scale_value := 1, W_scale_value := 1, Y_scale_value := 1, W_scale_arr := [] }

/-- An int-payload weight tensor used as a creation-call argument. -/
def exTensorC2 : Tensor Int := { dtype := 3, shape := [4, 1, 3, 3], data := [], bdata := [] }

/-! ### Claim theorems -/

/-- C1 (code bug): for an int8 per-channel node whose weight-scale tensor
holds the three values 1, 2, 3, the classifier selects qc8 and retains the
full array, but the qc8 creation call receives only the one-element buffer
holding the per-tensor scale value, not the retained per-channel array. -/
theorem conv_C1_code_bug :
    ParseQuantParamAndConType exInfoC1 XDType.int8 =
      Except.ok (exQpC1, XnnComputeType.qc8) ∧
    exQpC1.W_scale_arr = [1, 2, 3] ∧
    (buildCreateCall (fun v : Int => v.toNat) sameAttrs 4 3 [1, 1] none exWTensorC1 false
        exQpC1 XnnComputeType.qc8).map (fun call => call.variant.qc8ScaleBuf) =
      some (some [1]) ∧
    some (some [(1 : Int)]) ≠ some (some exQpC1.W_scale_arr) := by
  refine ⟨rfl, rfl, rfl, by decide⟩

/-- C2 (counterexample): with SAME_UPPER auto-padding requested, the qs8
kernel-creation call receives flags equal to 0, not the same-padding flag,
refuting the claim that all variants receive the flag. -/
theorem conv_C2_counterexample :
    (buildCreateCall (fun v : Int => v.toNat) sameAttrs 4 4 [3, 3] none exTensorC2 false
        exQpC2 XnnComputeType.qs8).map CreateCall.flags = some 0 ∧
    XNN_FLAG_TENSORFLOW_SAME_PADDING ≠ 0 :=
  ⟨rfl, by decide⟩

/-- C2 (amended): only the float32 creation call receives the computed
flags word, which holds the same-padding flag exactly when auto_pad is
SAME_UPPER; the qs8, qc8 and qu8 creation calls always receive flags 0. -/
theorem conv_C2_amended {α : Type} (castU8 : α → Nat) (conv_attrs : ConvAttrs) (C M : Nat)
    (kernel_shape : List Nat) (clip : Option (α × α)) (W : Tensor α) (b : Bool)
    (qp : QuantParam α) :
    (buildCreateCall castU8 conv_attrs C M kernel_shape clip W b qp
        XnnComputeType.fp32).map CreateCall.flags =
      some (if conv_attrs.auto_pad = AutoPadType.SAME_UPPER
            then XNN_FLAG_TENSORFLOW_SAME_PADDING else 0) ∧
    (buildCreateCall castU8 conv_attrs C M kernel_shape clip W b qp
        XnnComputeType.qs8).map CreateCall.flags = some 0 ∧
    (buildCreateCall castU8 conv_attrs C M kernel_shape clip W b qp
        XnnComputeType.qc8).map CreateCall.flags = some 0 ∧
    (buildCreateCall castU8 conv_attrs C M kernel_shape clip W b qp
        XnnComputeType.qu8).map CreateCall.flags = some 0 :=
  ⟨rfl, rfl, rfl, rfl⟩

/-- C4: the float32 creation call clamps to the fused clip pair when one is
supplied and to the infinities otherwise; the qs8 and qc8 calls always
clamp to the fixed pair -126, 126 regardless of any fused clip; the qu8
call clamps to the uint8-cast fused clip pair when supplied and to 0, 255
otherwise. -/
theorem conv_C4 {α : Type} (castU8 : α → Nat) (conv_attrs : ConvAttrs) (C M : Nat)
    (kernel_shape : List Nat) (clip : Option (α × α)) (W : Tensor α) (b : Bool)
    (qp : QuantParam α) :
    (buildCreateCall castU8 conv_attrs C M kernel_shape clip W b qp
        XnnComputeType.fp32).map (fun call => call.variant.outMinMaxF32) =
      some (some (match clip with
                  | some p => (ClampVal.val p.1, ClampVal.val p.2)
                  | none => (ClampVal.negInf, ClampVal.posInf))) ∧
    (buildCreateCall castU8 conv_attrs C M kernel_shape clip W b qp
        XnnComputeType.qs8).map (fun call => call.variant.outMinMaxS8) =
      some (some (-126, 126)) ∧
    (buildCreateCall castU8 conv_attrs C M kernel_shape clip W b qp
        XnnComputeType.qc8).map (fun call => call.variant.outMinMaxS8) =
      some (some (-126, 126)) ∧
    (buildCreateCall castU8 conv_attrs C M kernel_shape clip W b qp
        XnnComputeType.qu8).map (fun call => call.variant.outMinMaxU8) =
      some (some (match clip with
                  | some p => (castU8 p.1, castU8 p.2)
                  | none => (0, 255))) := by
  cases clip <;> exact ⟨rfl, rfl, rfl, rfl⟩

/-- C3: a successful classification returns exactly one variant: for int8
input, qc8 when the weight scale has more than one element and qs8 when it
has exactly one; for uint8 input, qu8; for any other dtype the invalid
variant, which the kernel-creation step turns into a build-time failure. -/
theorem conv_C3 {α : Type} [Inhabited α] (info : OpKernelInfo α) (d : XDType)
    (qp : QuantParam α) (t : XnnComputeType)
    (hok : ParseQuantParamAndConType info d = Except.ok (qp, t)) :
    (∀ Ws, d = XDType.int8 → info.constants IN_W_SCALE = some Ws →
      t = (if Ws.shape.prod = 1 then XnnComputeType.qs8 else XnnComputeType.qc8)) ∧
    (d = XDType.uint8 → t = XnnComputeType.qu8) ∧
    (d ≠ XDType.int8 → d ≠ XDType.uint8 → t = XnnComputeType.invalid) ∧
    (∀ castU8 : α → Nat, ∀ (native : CreateCall α → Nat) (conv_attrs : ConvAttrs)
      (C M : Nat) (kernel_shape : List Nat) (clip : Option (α × α)) (W : Tensor α)
      (b : Bool) (qp2 : QuantParam α), t = XnnComputeType.invalid →
        CreateXnnpackKernel castU8 native conv_attrs C M kernel_shape clip W b qp2 t =
          Except.error OrtErr.unsupportedKernelType) := by
  obtain ⟨Ws0, hWs0, ht⟩ := parse_ok_char info d qp t hok
  refine ⟨?_, ?_, ?_, ?_⟩
  · intro Ws hd hWs
    rw [hWs0] at hWs
    injection hWs with hWsEq
    subst hWsEq
    rw [ht, if_pos hd]
  · intro hd
    have hd1 : ¬d = XDType.int8 := by
      subst hd
      decide
    rw [ht, if_neg hd1, if_pos hd]
  · intro h1 h2
    rw [ht, if_neg h1, if_neg h2]
  · intro castU8 native conv_attrs C M kernel_shape clip W b qp2 htinv
    subst htinv
    rfl

/-- C3 witness: on the concrete int8 node with a three-element weight
scale, the classifier selects the per-channel qc8 variant. -/
theorem conv_C3_witness :
    ParseQuantParamAndConType exInfoC1 XDType.int8 =
      Except.ok (exQpC1, XnnComputeType.qc8) ∧
    XnnComputeType.qc8 =
      (if wScaleTensorC1.shape.prod = 1 then XnnComputeType.qs8 else XnnComputeType.qc8) := by
  have hok : ParseQuantParamAndConType exInfoC1 XDType.int8 =
      Except.ok (exQpC1, XnnComputeType.qc8) := rfl
  exact ⟨hok, (conv_C3 exInfoC1 XDType.int8 exQpC1 XnnComputeType.qc8 hok).1
    wScaleTensorC1 rfl rfl⟩

/-- C5: prepacking a rank-4 weight with dims d0 d1 d2 d3 stores a tensor of
dims d0 d2 d3 d1 with the source element type whose data is exactly the
0231 permutation of the source (pointwise, destination position m h w c
reads source position m c h w), and applying the inverse permutation
restores the original data byte-for-byte. -/
theorem conv_C5 {α : Type} [Inhabited α] [DecidableEq α] (castU8 : α → Nat)
    (native : CreateCall α → Nat) (s : ConvState α) (tensor : Tensor α)
    (input_idx : Nat) (d0 d1 d2 d3 : Nat)
    (hshape : tensor.shape = [d0, d1, d2, d3])
    (hlen : tensor.data.length = d0 * d1 * d2 * d3)
    (hidx : input_idx = (if s.conv_type = XnnComputeType.fp32 then 1 else IN_W)) :
    (PrePack castU8 native s tensor input_idx).state.packed_w =
      some { dtype := tensor.dtype, shape := [d0, d2, d3, d1],
             data := transpose0231 d0 d1 d2 d3 tensor.data, bdata := [] } ∧
    (∀ m c h w, m < d0 → c < d1 → h < d2 → w < d3 →
      (transpose0231 d0 d1 d2 d3 tensor.data).getD
          (((m * d2 + h) * d3 + w) * d1 + c) default =
        tensor.data.getD (((m * d1 + c) * d2 + h) * d3 + w) default) ∧
    transpose0312 d0 d1 d2 d3 (transpose0231 d0 d1 d2 d3 tensor.data) = tensor.data := by
  refine ⟨?_, ?_, ?_⟩
  · have hcond : (s.conv_type = XnnComputeType.fp32 ∧ input_idx = 1) ∨
        (¬s.conv_type = XnnComputeType.fp32 ∧ input_idx = IN_W) := by
      by_cases hft : s.conv_type = XnnComputeType.fp32
      · exact Or.inl ⟨hft, by rw [hidx, if_pos hft]⟩
      · exact Or.inr ⟨hft, by rw [hidx, if_neg hft]⟩
    unfold PrePack
    rw [if_pos hcond, hshape]
    simp only [List.getD_cons_zero, List.getD_cons_succ]
    split
    · rfl
    · split <;> rfl
  · intro m c h w hm hc hh hw
    exact transpose0231_apply d0 d1 d2 d3 m c h w tensor.data hm hc hh hw
  · exact transpose_roundtrip d0 d1 d2 d3 tensor.data hlen

/-- A float-path operator state over concrete attributes. -/
def exStateC5 : ConvState Int :=
  { conv_attrs := sameAttrs, clip_min_max := none, conv_type := XnnComputeType.fp32,
    quant_param := exQpC2, C := 2, M := 1, kernel_shape := [1, 2], B := none,
    packed_w := none, op0 := none }

/-- A concrete rank-4 weight with dims 1 2 1 2. -/
def exWTensorC5 : Tensor Int :=
  { dtype := 1, shape := [1, 2, 1, 2], data := [10, 11, 20, 21], bdata := [] }

/-- C5 witness: prepacking the concrete weight of dims 1 2 1 2 stores the
transposed layout of dims 1 1 2 2, the permutation reads the expected
source position, and the inverse permutation restores the data. -/
theorem conv_C5_witness :
    (PrePack (fun v : Int => v.toNat) (fun _ => 0) exStateC5 exWTensorC5 1).state.packed_w =
      some { dtype := exWTensorC5.dtype, shape := [1, 1, 2, 2],
             data := transpose0231 1 2 1 2 exWTensorC5.data, bdata := [] } ∧
    (transpose0231 1 2 1 2 exWTensorC5.data).getD (((0 * 1 + 0) * 2 + 1) * 2 + 1) default =
      exWTensorC5.data.getD (((0 * 2 + 1) * 1 + 0) * 2 + 1) default ∧
    transpose0312 1 2 1 2 (transpose0231 1 2 1 2 exWTensorC5.data) = exWTensorC5.data := by
  have h := conv_C5 (fun v : Int => v.toNat) (fun _ => 0) exStateC5 exWTensorC5 1 1 2 1 2
    rfl rfl rfl
  exact ⟨h.1, h.2.1 0 1 0 1 (by decide) (by decide) (by decide) (by decide), h.2.2⟩

/-- C6: whenever the inferred output shape has zero total elements, Compute
returns success immediately with the zero-element output dims and makes no
native setup or run call, leaving the state untouched. -/
theorem conv_C6 {α : Type} (setup_status run_status : Nat) (s : ConvState α)
    (x_shape : List Nat)
    (hzero : (Compute setup_status run_status s x_shape).y_dims.prod = 0) :
    (Compute setup_status run_status s x_shape).status = none ∧
    (Compute setup_status run_status s x_shape).setup_calls = 0 ∧
    (Compute setup_status run_status s x_shape).run_calls = 0 ∧
    (Compute setup_status run_status s x_shape).y_dims = computeYDims s x_shape ∧
    (Compute setup_status run_status s x_shape).state = s := by
  rw [compute_y_dims] at hzero
  unfold Compute
  rw [if_pos hzero]
  exact ⟨rfl, rfl, rfl, rfl, rfl⟩

/-- C6 witness: a zero-batch input on the concrete float state returns
success with no native call. -/
theorem conv_C6_witness :
    (Compute 0 0 exStateC5 [0, 5, 5, 4]).status = none ∧
    (Compute 0 0 exStateC5 [0, 5, 5, 4]).setup_calls = 0 ∧
    (Compute 0 0 exStateC5 [0, 5, 5, 4]).run_calls = 0 ∧
    (Compute 0 0 exStateC5 [0, 5, 5, 4]).y_dims = computeYDims exStateC5 [0, 5, 5, 4] ∧
    (Compute 0 0 exStateC5 [0, 5, 5, 4]).state = exStateC5 :=
  conv_C6 0 0 exStateC5 [0, 5, 5, 4] (by decide)

/-- C7: for a channel-last input of dims N H W C, the computed output dims
are N first, then the two spatial dims produced by the padded-convolution
inference from the kernel shape, strides, dilations and pads, with the
fixed output channel count M appended last; and the result does not depend
on the backend statuses, so repeated computation agrees. -/
theorem conv_C7 {α : Type} (s : ConvState α) (a1 b1 a2 b2 : Nat) (N H W Cin : Nat) :
    (Compute a1 b1 s [N, H, W, Cin]).y_dims =
      [N,
       inferOutputDim s.conv_attrs.auto_pad H (s.kernel_shape.getD 0 0)
         (s.conv_attrs.strides.getD 0 1) (s.conv_attrs.dilations.getD 0 1)
         (s.conv_attrs.pads.getD 0 0) (s.conv_attrs.pads.getD 2 0),
       inferOutputDim s.conv_attrs.auto_pad W (s.kernel_shape.getD 1 0)
         (s.conv_attrs.strides.getD 1 1) (s.conv_attrs.dilations.getD 1 1)
         (s.conv_attrs.pads.getD 1 0) (s.conv_attrs.pads.getD 3 0),
       s.M] ∧
    (Compute a1 b1 s [N, H, W, Cin]).y_dims = (Compute a2 b2 s [N, H, W, Cin]).y_dims := by
  constructor
  · rw [compute_y_dims]
    rfl
  · rw [compute_y_dims, compute_y_dims]

/-- C8: for a quantized node, if any of the six zero-point or scale inputs
is not a constant initializer, the build pipeline fails with a
precondition error before any native kernel-creation call is made. -/
theorem conv_C8 {α : Type} [Inhabited α] (castU8 : α → Nat) (native : CreateCall α → Nat)
    (info : OpKernelInfo α) (attrs0 : ConvAttrs)
    (hq : info.x_dtype ≠ XDType.float)
    (hmiss : info.constants IN_X_ZERO_POINT = none ∨
      info.constants IN_W_ZERO_POINT = none ∨
      info.constants IN_Y_ZERO_POINT = none ∨
      info.constants IN_X_SCALE = none ∨
      info.constants IN_W_SCALE = none ∨
      info.constants IN_Y_SCALE = none) :
    isPrecondFailure (buildOperator castU8 native info attrs0).1 = true ∧
    (buildOperator castU8 native info attrs0).2 = [] := by
  cases hp : ParseQuantParamAndConType info info.x_dtype with
  | ok z =>
    obtain ⟨h1, h2, h3, h4, h5, h6⟩ := parse_some_of_ok info info.x_dtype z hp
    rcases hmiss with h | h | h | h | h | h <;> simp [h] at h1 h2 h3 h4 h5 h6
  | error e =>
    obtain ⟨w, hw⟩ := parse_error_precond info info.x_dtype e hp
    subst hw
    unfold buildOperator constructConv
    rw [if_neg hq]
    cases hW : info.constants IN_W with
    | none => exact ⟨rfl, rfl⟩
    | some Wt =>
      rw [hp]
      exact ⟨rfl, rfl⟩

/-- A quantized node whose weight is constant but whose weight scale is not
a constant initializer. -/
def exInfoC8 : OpKernelInfo Int :=
  { constants := fun n =>
      if n = IN_X_ZERO_POINT ∨ n = IN_W_ZERO_POINT ∨ n = IN_Y_ZERO_POINT then some zpTensor
      else if n = IN_X_SCALE ∨ n = IN_Y_SCALE then some scale1Tensor
      else if n = IN_W then some exWTensorC1
      else none,
    x_dtype := XDType.int8, x_channels := 4, clip_min_max := none,
    num_inputs := 8, bias_exists := false }

/-- C8 witness: building the concrete node with a non-constant weight scale
fails with a precondition error and makes no creation call. -/
theorem conv_C8_witness :
    isPrecondFailure (buildOperator (fun v : Int => v.toNat) (fun _ => 0)
      exInfoC8 sameAttrs).1 = true ∧
    (buildOperator (fun v : Int => v.toNat) (fun _ => 0) exInfoC8 sameAttrs).2 = [] :=
  conv_C8 (fun v : Int => v.toNat) (fun _ => 0) exInfoC8 sameAttrs (by decide)
    (Or.inr (Or.inr (Or.inr (Or.inr (Or.inl rfl)))))

/-- C9: when the output is non-empty and the variant is valid, a
non-success status from the setup step or the run step is surfaced as a
failure carrying the backend status code, each native step runs at most
once (no internal retry), and the operator state is returned unchanged. -/
theorem conv_C9 {α : Type} (setup_status run_status : Nat) (s : ConvState α)
    (x_shape : List Nat)
    (hnz : (computeYDims s x_shape).prod ≠ 0)
    (hvalid : s.conv_type ≠ XnnComputeType.invalid) :
    (Compute setup_status run_status s x_shape).state = s ∧
    (Compute setup_status run_status s x_shape).setup_calls ≤ 1 ∧
    (Compute setup_status run_status s x_shape).run_calls ≤ 1 ∧
    (setup_status ≠ xnn_status_success →
      (Compute setup_status run_status s x_shape).status =
        some (OrtErr.setupFailed setup_status) ∧
      (Compute setup_status run_status s x_shape).run_calls = 0) ∧
    (setup_status = xnn_status_success → run_status ≠ xnn_status_success →
      (Compute setup_status run_status s x_shape).status =
        some (OrtErr.runFailed run_status)) := by
  unfold Compute
  rw [if_neg hnz, if_neg hvalid]
  by_cases hs : setup_status = xnn_status_success
  · rw [if_pos hs]
    by_cases hr : run_status = xnn_status_success
    · rw [if_pos hr]
      exact ⟨rfl, Nat.le_refl 1, Nat.le_refl 1, fun hcon => absurd hs hcon,
        fun _ hcon => absurd hr hcon⟩
    · rw [if_neg hr]
      exact ⟨rfl, Nat.le_refl 1, Nat.le_refl 1, fun hcon => absurd hs hcon,
        fun _ _ => rfl⟩
  · rw [if_neg hs]
    exact ⟨rfl, Nat.le_refl 1, Nat.zero_le 1, fun _ => ⟨rfl, rfl⟩,
      fun hcon _ => absurd hcon hs⟩

/-- C9 witness: a failing setup status on the concrete state surfaces the
backend code, skips the run call and leaves the state unchanged. -/
theorem conv_C9_witness :
    (Compute 9 0 exStateC5 [1, 5, 5, 4]).state = exStateC5 ∧
    (Compute 9 0 exStateC5 [1, 5, 5, 4]).status = some (OrtErr.setupFailed 9) ∧
    (Compute 9 0 exStateC5 [1, 5, 5, 4]).run_calls = 0 := by
  have h := conv_C9 9 0 exStateC5 [1, 5, 5, 4] (by decide) (by decide)
  exact ⟨h.1, (h.2.2.2.1 (by decide)).1, (h.2.2.2.1 (by decide)).2⟩

/-- C10: PrePack on any input position other than the weight position (1
for float32, IN_W for the quantized variants) changes nothing: the state
comes back untouched with no packed weight created and no kernel built,
is_packed is false, no native call is made, and the status is OK. -/
theorem conv_C10 {α : Type} [Inhabited α] (castU8 : α → Nat) (native : CreateCall α → Nat)
    (s : ConvState α) (tensor : Tensor α) (input_idx : Nat)
    (hidx : input_idx ≠ (if s.conv_type = XnnComputeType.fp32 then 1 else IN_W)) :
    PrePack castU8 native s tensor input_idx =
      { state := s, is_packed := false, calls := [], status := none } := by
  have hcond : ¬((s.conv_type = XnnComputeType.fp32 ∧ input_idx = 1) ∨
      (¬s.conv_type = XnnComputeType.fp32 ∧ input_idx = IN_W)) := by
    rintro (⟨hft, h1⟩ | ⟨hft, h3⟩)
    · rw [if_pos hft] at hidx
      exact hidx h1
    · rw [if_neg hft] at hidx
      exact hidx h3
  unfold PrePack
  rw [if_neg hcond]

/-- C10 witness: PrePack at input position 0 on the concrete float state is
an exact no-op reporting is_packed false. -/
theorem conv_C10_witness :
    PrePack (fun v : Int => v.toNat) (fun _ => 0) exStateC5 exWTensorC5 0 =
      { state := exStateC5, is_packed := false, calls := [], status := none } :=
  conv_C10 (fun v : Int => v.toNat) (fun _ => 0) exStateC5 exWTensorC5 0 (by decide)

end XnnpackConv
